import Mathlib

/-!
Verification of the feedback-analysis pipeline (multi_agent_system.py,
config_manager.py): a shallow embedding of the classification, priority,
technical-extraction, bug-analysis, quality-review, ticket-assembly and
configuration components, together with theorems settling the spec claims.

Python strings are modelled by Lean `String`; Python floats by `ℚ`;
Python dicts with a fixed key set by Lean structures (a key that a code
path may leave absent becomes an `Option` field); a raised exception by
`Except`.
-/

namespace FeedbackSystem

/-! ### String helpers (Python `str.lower`, `in`) -/

/-- Python `text.lower()` (ASCII case folding, as used by the keyword lists). -/
def pyLower (s : String) : String := String.mk (s.data.map Char.toLower)

/-- `startsWithL p t`: the char list `t` starts with the pattern `p`. -/
def startsWithL : List Char → List Char → Bool
  | [], _ => true
  | _ :: _, [] => false
  | a :: as, b :: bs => a == b && startsWithL as bs

/-- Python `p in t` on char lists: `p` occurs contiguously inside `t`. -/
def containsL : List Char → List Char → Bool
  | t, p =>
    startsWithL p t ||
      match t with
      | [] => false
      | _ :: ts => containsL ts p

/-- Python `needle in hay` for strings. -/
def strContains (hay needle : String) : Bool := containsL hay.data needle.data

/-- `any(keyword in textLower for keyword in kws)`. -/
def anyKeyword (textLower : String) (kws : List String) : Bool :=
  kws.any (fun k => strContains textLower k)

/-- `sum(1 for keyword in kws if keyword in textLower)`: one point per
keyword present, not per occurrence. -/
def countPresent (textLower : String) (kws : List String) : Nat :=
  (kws.filter (fun k => strContains textLower k)).length

/-! ### Classification configuration (config_manager.py) -/

/-- `ClassificationThresholds` dataclass. -/
structure ClassificationThresholds where
  bug_threshold : ℚ
  feature_threshold : ℚ
  praise_threshold : ℚ
  complaint_threshold : ℚ
  spam_threshold : ℚ
  minimum_confidence : ℚ
  deriving Repr, DecidableEq

/-- The dataclass defaults. -/
def defaultClassificationThresholds : ClassificationThresholds :=
  ⟨7/10, 6/10, 6/10, 6/10, 8/10, 1/2⟩

/-- `ConfigurationManager.get_classification_threshold`: dict lookup with
`minimum_confidence` as the default for unrecognized categories. -/
def getClassificationThreshold (ct : ClassificationThresholds) (category : String) : ℚ :=
  if category = "Bug" then ct.bug_threshold
  else if category = "Feature Request" then ct.feature_threshold
  else if category = "Praise" then ct.praise_threshold
  else if category = "Complaint" then ct.complaint_threshold
  else if category = "Spam" then ct.spam_threshold
  else ct.minimum_confidence

/-! ### ClassificationTool._run (multi_agent_system.py) -/

def bugKeywords : List String :=
  ["crash", "error", "bug", "issue", "problem", "broken", "not working",
   "freezes", "stuck", "fails", "wrong", "incorrect", "lost data"]

def featureKeywords : List String :=
  ["please add", "would love", "suggestion", "feature request",
   "missing", "need", "want", "wish", "improve", "enhancement"]

def praiseKeywords : List String :=
  ["amazing", "great", "love", "perfect", "excellent", "awesome",
   "fantastic", "wonderful", "best", "recommended"]

def complaintKeywords : List String :=
  ["expensive", "slow", "poor", "bad", "terrible", "horrible",
   "disappointed", "frustrated", "angry"]

def spamKeywords : List String :=
  ["click here", "www.", "money", "deal", "offer", "contact us",
   "asdf", "random"]

/-- One step of Python's `max` iteration: keep the current maximum,
replacing only on a strictly greater value. -/
def pyMax (x : String × Nat) : List (String × Nat) → String × Nat
  | [] => x
  | y :: ys => pyMax (if y.2 > x.2 then y else x) ys

/-- Python `max(scores, key=scores.get)` over the insertion-ordered pairs:
the first maximal entry wins. -/
def argmaxFold : List (String × Nat) → String × Nat
  | [] => ("", 0)
  | x :: xs => pyMax x xs

/-- The JSON object returned by `ClassificationTool._run`. -/
structure ClassificationResult where
  category : String
  confidence : ℚ
  scores : List (String × Nat)
  threshold_used : ℚ
  meets_threshold : Bool
  deriving Repr, DecidableEq

/-- `ClassificationTool._run`, translated line by line. -/
def classify (text : String) (ct : ClassificationThresholds) : ClassificationResult :=
  let text_lower := pyLower text
  let bug_score := countPresent text_lower bugKeywords
  let feature_score := countPresent text_lower featureKeywords
  let praise_score := countPresent text_lower praiseKeywords
  let complaint_score := countPresent text_lower complaintKeywords
  let spam_score := countPresent text_lower spamKeywords
  let scores : List (String × Nat) :=
    [("Bug", bug_score), ("Feature Request", feature_score), ("Praise", praise_score),
     ("Complaint", complaint_score), ("Spam", spam_score)]
  let category := (argmaxFold scores).1
  let winning_score := (argmaxFold scores).2
  let total := bug_score + feature_score + praise_score + complaint_score + spam_score
  let raw_confidence : ℚ := (winning_score : ℚ) / (max 1 total : Nat)
  let confidence := raw_confidence * 100
  let threshold := getClassificationThreshold ct category
  let result :=
    if raw_confidence < threshold then
      if raw_confidence < ct.minimum_confidence then
        ("Uncertain", raw_confidence * 50)
      else
        (category, confidence)
    else
      (category, confidence)
  { category := result.1
    confidence := result.2
    scores := scores
    threshold_used := threshold
    meets_threshold := raw_confidence ≥ threshold }

/-! ### Spec-side formulation of the classifier (claim wording) -/

/-- The claim's arg-max: the first category in the fixed order
{Bug, Feature Request, Praise, Complaint, Spam} whose score is maximal. -/
def specWinner (b f p c s : Nat) : String :=
  if b ≥ f ∧ b ≥ p ∧ b ≥ c ∧ b ≥ s then "Bug"
  else if f ≥ p ∧ f ≥ c ∧ f ≥ s then "Feature Request"
  else if p ≥ c ∧ p ≥ s then "Praise"
  else if c ≥ s then "Complaint"
  else "Spam"

/-- The classifier as the claim words it: arg-max with fixed tie order,
`raw_confidence = winning_score / max(1, total)`, reported confidence
`raw*100`, except that when `raw` is below both the winner's configured
threshold and the global `minimum_confidence` the category becomes
"Uncertain" with reported confidence `raw*50`. -/
def specClassify (text : String) (ct : ClassificationThresholds) : String × ℚ :=
  let tl := pyLower text
  let b := countPresent tl bugKeywords
  let f := countPresent tl featureKeywords
  let p := countPresent tl praiseKeywords
  let c := countPresent tl complaintKeywords
  let s := countPresent tl spamKeywords
  let winner := specWinner b f p c s
  let winning_score := max b (max f (max p (max c s)))
  let raw : ℚ := (winning_score : ℚ) / (max 1 (b + f + p + c + s) : Nat)
  if raw < getClassificationThreshold ct winner ∧ raw < ct.minimum_confidence then
    ("Uncertain", raw * 50)
  else
    (winner, raw * 100)

/-! ### PriorityTool._run (multi_agent_system.py) -/

def criticalKeywords : List String :=
  ["urgent", "critical", "data loss", "cannot login", "crashed",
   "lost all", "business", "important"]

def highKeywords : List String :=
  ["crash", "error", "bug", "broken", "not working", "issue"]

/-- `PriorityTool._run`, translated line by line. -/
def priorityRun (text category : String) : String :=
  let text_lower := pyLower text
  if anyKeyword text_lower criticalKeywords then "Critical"
  else if category = "Bug" ∧ anyKeyword text_lower highKeywords then "High"
  else if category = "Feature Request" then "Medium"
  else if category = "Complaint" then "Medium"
  else if category = "Praise" ∨ category = "Spam" then "Low"
  else "Low"

/-- The priority cascade as the claim words it: Critical on any critical
keyword regardless of category; else High for Bug with a high keyword; else
Medium for Feature Request or Complaint; else Low. -/
def specPriority (text category : String) : String :=
  let tl := pyLower text
  if anyKeyword tl criticalKeywords then "Critical"
  else if category = "Bug" ∧ anyKeyword tl highKeywords then "High"
  else if category = "Feature Request" ∨ category = "Complaint" then "Medium"
  else "Low"

/-! ### TechnicalDetailsTool._run (multi_agent_system.py) -/

def deviceList : List String :=
  ["iphone", "ipad", "android", "samsung", "galaxy", "pixel", "huawei"]

/-- Python `\s` (whitespace) on the characters the texts use. -/
def pyIsSpace (c : Char) : Bool := c.isWhitespace

/-- The tail of the regex `ios\s*(\d+\.?\d*)` / `android\s*(\d+\.?\d*)`:
after the literal, skip whitespace, read one-or-more digits, then an
optional dot followed by zero-or-more digits, returning the capture. -/
def parseNumTail (cs : List Char) : Option (List Char) :=
  let cs1 := cs.dropWhile pyIsSpace
  let d1 := cs1.takeWhile Char.isDigit
  let r1 := cs1.dropWhile Char.isDigit
  if d1.isEmpty then none
  else
    match r1 with
    | '.' :: r2 => some (d1 ++ '.' :: r2.takeWhile Char.isDigit)
    | _ => some d1

/-- The tail of the regex `version\s*(\d+\.\d+\.?\d*)`: whitespace, digits,
a mandatory dot and digits, then an optional dot with zero-or-more digits. -/
def parseVersionTail (cs : List Char) : Option (List Char) :=
  let cs1 := cs.dropWhile pyIsSpace
  let d1 := cs1.takeWhile Char.isDigit
  let r1 := cs1.dropWhile Char.isDigit
  if d1.isEmpty then none
  else
    match r1 with
    | '.' :: r2 =>
      let d2 := r2.takeWhile Char.isDigit
      let r3 := r2.dropWhile Char.isDigit
      if d2.isEmpty then none
      else
        match r3 with
        | '.' :: r4 => some (d1 ++ '.' :: d2 ++ '.' :: r4.takeWhile Char.isDigit)
        | _ => some (d1 ++ '.' :: d2)
    | _ => none

/-- `re.search` for a pattern `lit` followed by a numeric tail: try every
start position left to right, returning the first full match's capture. -/
def searchFrom (lit : List Char) (parse : List Char → Option (List Char)) :
    List Char → Option (List Char)
  | [] => none
  | c :: rest =>
    if startsWithL lit (c :: rest) then
      match parse (List.drop lit.length (c :: rest)) with
      | some v => some v
      | none => searchFrom lit parse rest
    else searchFrom lit parse rest

/-- The `details` list built by `TechnicalDetailsTool._run`, in the code's
append order: devices, iOS, Android, app version, reproduction marker.
Each detail is kept as a char list. -/
def techSignals (text : String) : List (List Char) :=
  let tls := (pyLower text).data
  ((deviceList.filter (fun d => containsL tls d.data)).map
      (fun d => "Device: ".data ++ d.data))
  ++ ((searchFrom "ios".data parseNumTail tls).toList.map
      (fun v => "iOS: ".data ++ v))
  ++ ((searchFrom "android".data parseNumTail tls).toList.map
      (fun v => "Android: ".data ++ v))
  ++ ((searchFrom "version".data parseVersionTail tls).toList.map
      (fun v => "App Version: ".data ++ v))
  ++ (if containsL tls "steps".data || containsL tls "reproduce".data then
        ["Contains reproduction steps".data]
      else [])

/-- Python `"; ".join(details)`. -/
def joinSemi : List (List Char) → List Char
  | [] => []
  | [d] => d
  | d :: ds => d ++ ';' :: ' ' :: joinSemi ds

/-- `TechnicalDetailsTool._run`: the joined details, or the sentinel when
nothing was detected. -/
def techDetails (text : String) : String :=
  match techSignals text with
  | [] => "No technical details found"
  | ds => String.mk (joinSemi ds)

/-! ### Bug analyzer and feature extractor (multi_agent_system.py) -/

/-- The dict returned by `execute_bug_analyzer_manually`; the skip branch
returns no `reproduction_steps` key, hence the `Option`. -/
structure BugAnalysis where
  is_bug : Bool
  technical_details : String
  severity : String
  priority : String
  reproduction_steps : Option String
  deriving Repr, DecidableEq

/-- `execute_bug_analyzer_manually`, translated line by line (logging
dropped). -/
def bugAnalyzer (text category : String) : BugAnalysis :=
  if pyLower category ≠ "bug" then
    { is_bug := false
      technical_details := "N/A - not a bug report"
      severity := "N/A"
      priority := "N/A"
      reproduction_steps := none }
  else
    let technical_details := techDetails text
    let priority := priorityRun text category
    let text_lower := pyLower text
    let severity :=
      if anyKeyword text_lower ["crash", "data loss", "cannot", "critical", "urgent"] then "High"
      else if anyKeyword text_lower ["error", "issue", "problem", "broken"] then "Medium"
      else "Low"
    { is_bug := true
      technical_details := technical_details
      severity := severity
      priority := priority
      reproduction_steps :=
        some (if strContains text_lower "steps" || strContains text_lower "reproduce" then
                "Contains reproduction steps"
              else "No steps provided") }

/-- The dict returned by `execute_feature_extractor_manually`; the skip
branch returns no `user_benefit` key. -/
structure FeatureAnalysis where
  is_feature : Bool
  impact : String
  complexity : String
  priority : String
  user_benefit : Option String
  deriving Repr, DecidableEq

/-- `execute_feature_extractor_manually`, translated line by line. -/
def featureExtractor (text category : String) : FeatureAnalysis :=
  if pyLower category ≠ "feature request" then
    { is_feature := false
      impact := "N/A"
      complexity := "N/A"
      priority := "N/A"
      user_benefit := none }
  else
    let priority := priorityRun text category
    let text_lower := pyLower text
    let impact :=
      if anyKeyword text_lower ["all users", "everyone", "essential", "critical", "necessary"] then
        "High"
      else if anyKeyword text_lower ["many users", "important", "useful", "would help"] then
        "Medium"
      else "Low"
    let complexity :=
      if anyKeyword text_lower ["simple", "easy", "basic", "just add"] then "Low"
      else if anyKeyword text_lower ["complex", "difficult", "integration", "system"] then "High"
      else "Medium"
    { is_feature := true
      impact := impact
      complexity := complexity
      priority := priority
      user_benefit :=
        some (if impact = "High" then "High user value" else impact ++ " user value") }

/-! ### Quality reviewer (multi_agent_system.py) -/

/-- The fields of a ticket dict that `execute_quality_reviewer_manually`
consults, each possibly missing (`none`) or present; `ticket_id` (used only
for logging) is assumed present. -/
structure TicketRecord where
  title : Option String
  description : Option String
  category : Option String
  priority : Option String
  confidence_score : Option ℚ
  deriving Repr, DecidableEq

/-- Python falsiness of `ticket_data.get(field)` for a string field:
missing (`None`) or empty. -/
def pyFalsy : Option String → Bool
  | none => true
  | some s => s = ""

/-- The dict returned by `execute_quality_reviewer_manually`. -/
structure QualityReview where
  quality_score : ℤ
  issues : List String
  status : String
  deriving Repr, DecidableEq

/-- `execute_quality_reviewer_manually`, translated line by line: start at
100, subtract 20 per missing/empty required field, 10 for a short
description, 15 for low confidence; approve at the fixed cutoff 70. -/
def qualityReview (t : TicketRecord) : QualityReview :=
  let s1 : ℤ := 100
  let i1 : List String := []
  let s2 := if pyFalsy t.title then s1 - 20 else s1
  let i2 := if pyFalsy t.title then i1 ++ ["Missing title"] else i1
  let s3 := if pyFalsy t.description then s2 - 20 else s2
  let i3 := if pyFalsy t.description then i2 ++ ["Missing description"] else i2
  let s4 := if pyFalsy t.category then s3 - 20 else s3
  let i4 := if pyFalsy t.category then i3 ++ ["Missing category"] else i3
  let s5 := if pyFalsy t.priority then s4 - 20 else s4
  let i5 := if pyFalsy t.priority then i4 ++ ["Missing priority"] else i4
  let descLen := ((t.description.getD "").data).length
  let s6 := if descLen < 10 then s5 - 10 else s5
  let i6 := if descLen < 10 then i5 ++ ["Description too short"] else i5
  let s7 := if t.confidence_score.getD 0 < 50 then s6 - 15 else s6
  let i7 := if t.confidence_score.getD 0 < 50 then i6 ++ ["Low confidence score"] else i6
  { quality_score := s7
    issues := i7
    status := if s7 ≥ 70 then "approved" else "needs_review" }

/-! ### Title generation and the per-item pipeline (multi_agent_system.py) -/

/-- `FeedbackAnalysisSystem._generate_title`, translated line by line. -/
def generateTitle (category text : String) : String :=
  if category = "Bug" then
    if strContains (pyLower text) "crash" then "Fix: Application crash issue"
    else if strContains (pyLower text) "login" then "Fix: Login authentication problem"
    else if strContains (pyLower text) "sync" then "Fix: Data synchronization issue"
    else "Fix: Application bug report"
  else if category = "Feature Request" then
    if strContains (pyLower text) "dark mode" then "Feature: Add dark mode support"
    else if strContains (pyLower text) "calendar" then "Feature: Calendar integration"
    else if strContains (pyLower text) "export" then "Feature: Export functionality"
    else "Feature: User-requested enhancement"
  else if category = "Praise" then "Positive feedback received"
  else if category = "Complaint" then "User complaint - investigate"
  else "Spam content - review for removal"

/-- The ticket dict assembled by `_process_single_feedback_with_agents`
(after the quality-review update); the bug- and feature-specific keys are
only present when the respective analyzer matched. -/
structure Ticket where
  ticket_id : String
  source_id : String
  source_type : String
  category : String
  priority : String
  title : String
  description : String
  technical_details : String
  confidence_score : ℚ
  created_date : String
  status : String
  bug_severity : Option String
  reproduction_steps : Option String
  bug_priority : Option String
  feature_impact : Option String
  feature_complexity : Option String
  user_benefit : Option String
  quality_score : ℤ
  quality_issues : List String
  review_status : String
  deriving Repr, DecidableEq

/-- `_process_single_feedback_with_agents`, translated step by step:
classification, (category-gated) bug and feature analysis, priority,
technical details, title, ticket assembly, quality review, final update.
`now` stands for `datetime.now().isoformat()`. -/
def processSingleWithAgents (source_id source_type text : String)
    (ct : ClassificationThresholds) (now : String) : Ticket :=
  let cls := classify text ct
  let category := cls.category
  let confidence := cls.confidence
  let bug_analysis := bugAnalyzer text category
  let feature_analysis := featureExtractor text category
  let priority := priorityRun text category
  let technical_details := techDetails text
  let title := generateTitle category text
  let description :=
    if text.data.length > 500 then String.mk (text.data.take 500) ++ "..." else text
  let quality := qualityReview
    { title := some title
      description := some description
      category := some category
      priority := some priority
      confidence_score := some confidence }
  { ticket_id := "TICKET-" ++ source_id
    source_id := source_id
    source_type := source_type
    category := category
    priority := priority
    title := title
    description := description
    technical_details := technical_details
    confidence_score := confidence
    created_date := now
    status := "Open"
    bug_severity := if bug_analysis.is_bug then some bug_analysis.severity else none
    reproduction_steps :=
      if bug_analysis.is_bug then bug_analysis.reproduction_steps else none
    bug_priority := if bug_analysis.is_bug then some bug_analysis.priority else none
    feature_impact := if feature_analysis.is_feature then some feature_analysis.impact else none
    feature_complexity :=
      if feature_analysis.is_feature then some feature_analysis.complexity else none
    user_benefit := if feature_analysis.is_feature then feature_analysis.user_benefit else none
    quality_score := quality.quality_score
    quality_issues := quality.issues
    review_status := quality.status }

/-! ### The hybrid batch loop (process_feedback_hybrid) -/

/-- A cell of the JSON-roundtripped CSV row: a string, or the `None` that a
blank cell's NaN becomes under `df.to_json` / `json.loads`. -/
inductive PyVal where
  | str (s : String)
  | nan
  deriving Repr, DecidableEq

/-- One combined CSV row as the hybrid loop's source detection sees it:
a review row (has `review_text`), an email row (has `subject` and `body`),
or a row with neither, which the loop skips with `continue`. -/
inductive FeedbackItem where
  | review (review_text : PyVal) (review_id : String)
  | email (subject body : String) (email_id : String)
  | other
  deriving Repr, DecidableEq

/-- The source text and id the loop extracts from an item, `none` meaning
`continue`. An email's subject and body are f-string-joined, so they are
strings here; a review's text is used raw and may be NaN. -/
def itemSource : FeedbackItem → Option (PyVal × String)
  | .review t id => some (t, id)
  | .email s b id => some (.str (s ++ " " ++ b), id)
  | .other => none

/-- `_process_single_feedback_with_agents` as called on a raw cell: a null
text raises (`text[:50]` on a non-string) and nothing in the callee or the
loop catches it, so the call is fallible. -/
def processSingleE (t : PyVal) (source_id : String) (ct : ClassificationThresholds)
    (now : String) : Except String Ticket :=
  match t with
  | .nan => .error "TypeError: 'NoneType' object is not subscriptable"
  | .str s => .ok (processSingleWithAgents source_id "feedback" s ct now)

/-- The per-item loop of `process_feedback_hybrid`: items are processed in
order, rows with no recognized text columns are skipped, and an exception
from one item propagates — there is no per-item try/except. -/
def hybridLoop (items : List FeedbackItem) (ct : ClassificationThresholds)
    (now : String) : Except String (List Ticket) :=
  match items with
  | [] => .ok []
  | it :: rest =>
    match itemSource it with
    | none => hybridLoop rest ct now
    | some (t, sid) =>
      match processSingleE t sid ct now with
      | .error e => .error e
      | .ok tk =>
        match hybridLoop rest ct now with
        | .error e => .error e
        | .ok tks => .ok (tk :: tks)

/-- An item the loop either skips or processes without raising. -/
def itemGood : FeedbackItem → Bool
  | .review .nan _ => false
  | _ => true

/-! ### Configuration model (config_manager.py) -/

/-- `PriorityWeights` dataclass; the two category→priority maps are dicts,
modelled as insertion-ordered association lists. -/
structure PriorityWeights where
  bug_severity_weight : ℚ
  user_impact_weight : ℚ
  technical_complexity_weight : ℚ
  business_priority_weight : ℚ
  bug_priority_mapping : List (String × String)
  feature_priority_mapping : List (String × String)
  deriving Repr, DecidableEq

def defaultBugPriorityMapping : List (String × String) :=
  [("Critical", "Critical"), ("High", "High"), ("Medium", "Medium"), ("Low", "Low")]

def defaultFeaturePriorityMapping : List (String × String) :=
  [("High Impact", "High"), ("Medium Impact", "Medium"), ("Low Impact", "Low")]

/-- The dataclass defaults (after `__post_init__` fills the maps). -/
def defaultPriorityWeights : PriorityWeights :=
  ⟨4/10, 3/10, 2/10, 1/10, defaultBugPriorityMapping, defaultFeaturePriorityMapping⟩

/-- `QualityThresholds` dataclass. -/
structure QualityThresholds where
  minimum_quality_score : ℚ
  auto_approve_threshold : ℚ
  manual_review_threshold : ℚ
  reject_threshold : ℚ
  deriving Repr, DecidableEq

def defaultQualityThresholds : QualityThresholds := ⟨70, 90, 60, 40⟩

/-- `AgentSettings` dataclass. -/
structure AgentSettings where
  enable_bug_analysis : Bool
  enable_feature_extraction : Bool
  enable_quality_review : Bool
  enable_technical_extraction : Bool
  classification_timeout : ℤ
  bug_analysis_timeout : ℤ
  feature_extraction_timeout : ℤ
  quality_review_timeout : ℤ
  deriving Repr, DecidableEq

def defaultAgentSettings : AgentSettings := ⟨true, true, true, true, 30, 45, 30, 20⟩

/-- `ProcessingRules` dataclass. -/
structure ProcessingRules where
  skip_low_confidence_items : Bool
  auto_categorize_spam : Bool
  require_manual_review_for_critical : Bool
  batch_size : ℤ
  max_retries : ℤ
  deriving Repr, DecidableEq

def defaultProcessingRules : ProcessingRules := ⟨false, true, true, 10, 3⟩

/-- `SystemConfiguration` dataclass. -/
structure SystemConfiguration where
  classification_thresholds : ClassificationThresholds
  priority_weights : PriorityWeights
  quality_thresholds : QualityThresholds
  agent_settings : AgentSettings
  processing_rules : ProcessingRules
  version : String
  last_updated : String
  created_by : String
  deriving Repr, DecidableEq

/-- `create_default_configuration()` (with `last_updated` filled by
`__post_init__` from the ambient clock, passed here as `now`). -/
def createDefaultConfiguration (now : String) : SystemConfiguration :=
  { classification_thresholds := defaultClassificationThresholds
    priority_weights := defaultPriorityWeights
    quality_thresholds := defaultQualityThresholds
    agent_settings := defaultAgentSettings
    processing_rules := defaultProcessingRules
    version := "1.0.0"
    last_updated := now
    created_by := "system_default" }

/-- The image of `PriorityWeights` under `asdict`: the two maps come out as
plain dicts, possibly `null` only in hand-written files, hence `Option`. -/
structure PriorityWeightsDoc where
  bug_severity_weight : ℚ
  user_impact_weight : ℚ
  technical_complexity_weight : ℚ
  business_priority_weight : ℚ
  bug_priority_mapping : Option (List (String × String))
  feature_priority_mapping : Option (List (String × String))
  deriving Repr, DecidableEq

/-- A configuration JSON document as `load_configuration` reads it: each
section and metadata key may be absent (`config_dict.get(..)`), and a
well-formed section carries all its fields. -/
structure ConfigDoc where
  classification_thresholds : Option ClassificationThresholds
  priority_weights : Option PriorityWeightsDoc
  quality_thresholds : Option QualityThresholds
  agent_settings : Option AgentSettings
  processing_rules : Option ProcessingRules
  version : Option String
  last_updated : Option String
  created_by : Option String
  deriving Repr, DecidableEq

/-- `asdict(self.config)` followed by `json.dump`: every key is emitted. -/
def exportConfiguration (c : SystemConfiguration) : ConfigDoc :=
  { classification_thresholds := some c.classification_thresholds
    priority_weights := some
      { bug_severity_weight := c.priority_weights.bug_severity_weight
        user_impact_weight := c.priority_weights.user_impact_weight
        technical_complexity_weight := c.priority_weights.technical_complexity_weight
        business_priority_weight := c.priority_weights.business_priority_weight
        bug_priority_mapping := some c.priority_weights.bug_priority_mapping
        feature_priority_mapping := some c.priority_weights.feature_priority_mapping }
    quality_thresholds := some c.quality_thresholds
    agent_settings := some c.agent_settings
    processing_rules := some c.processing_rules
    version := some c.version
    last_updated := some c.last_updated
    created_by := some c.created_by }

/-- `load_configuration` on a parsed document: missing sections fall back to
the dataclass defaults, `PriorityWeights.__post_init__` replaces `null`
maps, and `SystemConfiguration.__post_init__` stamps `now` when
`last_updated` comes out empty. -/
def loadConfiguration (d : ConfigDoc) (now : String) : SystemConfiguration :=
  let pw : PriorityWeights :=
    match d.priority_weights with
    | none => defaultPriorityWeights
    | some w =>
      { bug_severity_weight := w.bug_severity_weight
        user_impact_weight := w.user_impact_weight
        technical_complexity_weight := w.technical_complexity_weight
        business_priority_weight := w.business_priority_weight
        bug_priority_mapping := w.bug_priority_mapping.getD defaultBugPriorityMapping
        feature_priority_mapping :=
          w.feature_priority_mapping.getD defaultFeaturePriorityMapping }
  let lu := d.last_updated.getD ""
  { classification_thresholds :=
      d.classification_thresholds.getD defaultClassificationThresholds
    priority_weights := pw
    quality_thresholds := d.quality_thresholds.getD defaultQualityThresholds
    agent_settings := d.agent_settings.getD defaultAgentSettings
    processing_rules := d.processing_rules.getD defaultProcessingRules
    version := d.version.getD "1.0.0"
    last_updated := if lu = "" then now else lu
    created_by := d.created_by.getD "system" }

/-- `import_configuration`: load the imported document, then
`save_configuration` restamps `last_updated` with the save-time clock. -/
def importConfiguration (d : ConfigDoc) (loadTime saveTime : String) : SystemConfiguration :=
  let loaded := loadConfiguration d loadTime
  { loaded with last_updated := saveTime }

/-- Erase the one timestamp field of an exported document. -/
def dropTimestamp (d : ConfigDoc) : ConfigDoc := { d with last_updated := none }

/-- `validate_configuration`, translated line by line. The priority-weights
warning text interpolates the computed sum; the numeric rendering is
abstracted by `weightsWarning`. -/
def weightsWarning (sum : ℚ) : String :=
  "Priority weights sum to " ++ toString sum ++ ", consider normalizing to 1.0"

/-- The dict returned by `validate_configuration`. -/
structure ValidationResult where
  valid : Bool
  issues : List String
  warnings : List String
  deriving Repr, DecidableEq

def validateConfiguration (c : SystemConfiguration) : ValidationResult :=
  let ct := c.classification_thresholds
  let issues : List String :=
    (if ¬ (0 ≤ ct.minimum_confidence ∧ ct.minimum_confidence ≤ 1) then
      ["Minimum confidence must be between 0.0 and 1.0"] else [])
    ++ (if ¬ (0 ≤ ct.bug_threshold ∧ ct.bug_threshold ≤ 1) then
      ["bug_threshold must be between 0.0 and 1.0"] else [])
    ++ (if ¬ (0 ≤ ct.feature_threshold ∧ ct.feature_threshold ≤ 1) then
      ["feature_threshold must be between 0.0 and 1.0"] else [])
    ++ (if ¬ (0 ≤ ct.praise_threshold ∧ ct.praise_threshold ≤ 1) then
      ["praise_threshold must be between 0.0 and 1.0"] else [])
    ++ (if ¬ (0 ≤ ct.complaint_threshold ∧ ct.complaint_threshold ≤ 1) then
      ["complaint_threshold must be between 0.0 and 1.0"] else [])
    ++ (if ¬ (0 ≤ ct.spam_threshold ∧ ct.spam_threshold ≤ 1) then
      ["spam_threshold must be between 0.0 and 1.0"] else [])
    ++ (if c.quality_thresholds.reject_threshold ≥
          c.quality_thresholds.manual_review_threshold then
      ["Reject threshold must be lower than manual review threshold"] else [])
    ++ (if c.quality_thresholds.manual_review_threshold ≥
          c.quality_thresholds.auto_approve_threshold then
      ["Manual review threshold must be lower than auto-approve threshold"] else [])
  let weights_sum :=
    c.priority_weights.bug_severity_weight + c.priority_weights.user_impact_weight +
      c.priority_weights.technical_complexity_weight +
      c.priority_weights.business_priority_weight
  let warnings : List String :=
    if |weights_sum - 1| > 1/10 then [weightsWarning weights_sum] else []
  { valid := issues.isEmpty
    issues := issues
    warnings := warnings }

/-- All six classification thresholds lie in [0,1] (in the code's check
order: minimum confidence first). -/
def ctInRange (ct : ClassificationThresholds) : Prop :=
  (0 ≤ ct.minimum_confidence ∧ ct.minimum_confidence ≤ 1) ∧
    (0 ≤ ct.bug_threshold ∧ ct.bug_threshold ≤ 1) ∧
    (0 ≤ ct.feature_threshold ∧ ct.feature_threshold ≤ 1) ∧
    (0 ≤ ct.praise_threshold ∧ ct.praise_threshold ≤ 1) ∧
    (0 ≤ ct.complaint_threshold ∧ ct.complaint_threshold ≤ 1) ∧
    (0 ≤ ct.spam_threshold ∧ ct.spam_threshold ≤ 1)

/-- The sum of the four priority weights. -/
def weightsSum (pw : PriorityWeights) : ℚ :=
  pw.bug_severity_weight + pw.user_impact_weight +
    pw.technical_complexity_weight + pw.business_priority_weight

/-- The claim's validity condition: every classification threshold in
[0,1] and the quality thresholds strictly ascending. -/
def specValid (c : SystemConfiguration) : Prop :=
  ctInRange c.classification_thresholds ∧
    c.quality_thresholds.reject_threshold < c.quality_thresholds.manual_review_threshold ∧
    c.quality_thresholds.manual_review_threshold < c.quality_thresholds.auto_approve_threshold

/-! ## Theorems -/

set_option maxHeartbeats 1000000 in
/-- The code's fold-based arg-max agrees with the spec's first-maximal
description and returns the maximum score. -/
theorem argmaxFold_eq_specWinner (b f p c s : Nat) :
    argmaxFold
        [("Bug", b), ("Feature Request", f), ("Praise", p), ("Complaint", c), ("Spam", s)]
      = (specWinner b f p c s, max b (max f (max p (max c s)))) := by
  simp only [argmaxFold, pyMax, specWinner]
  split_ifs <;> simp_all <;> omega

/-- Helper: on a text whose five keyword scores are all zero, the classifier
reports confidence 0, and category "Uncertain" precisely when the Bug
threshold and the global minimum confidence are both positive. -/
theorem classify_all_zero (text : String) (ct : ClassificationThresholds)
    (h1 : countPresent (pyLower text) bugKeywords = 0)
    (h2 : countPresent (pyLower text) featureKeywords = 0)
    (h3 : countPresent (pyLower text) praiseKeywords = 0)
    (h4 : countPresent (pyLower text) complaintKeywords = 0)
    (h5 : countPresent (pyLower text) spamKeywords = 0) :
    (classify text ct).confidence = 0 ∧
      (classify text ct).category =
        (if 0 < ct.bug_threshold ∧ 0 < ct.minimum_confidence then "Uncertain" else "Bug") := by
  simp only [classify, h1, h2, h3, h4, h5, argmaxFold, pyMax, getClassificationThreshold]
  norm_num
  split_ifs <;> simp_all

/-- C1: for every input text, the classifier lower-cases it, computes the five
keyword-presence scores, picks the arg-max category with ties broken in the
fixed order {Bug, Feature Request, Praise, Complaint, Spam}, sets
raw_confidence = winning_score / max(1, total) and reports raw*100, except
that when raw_confidence is below both the winner's configured threshold and
the global minimum_confidence the category becomes "Uncertain" with reported
confidence raw*50. -/
theorem C1_classifier_matches_spec (text : String) (ct : ClassificationThresholds) :
    (classify text ct).category = (specClassify text ct).1 ∧
      (classify text ct).confidence = (specClassify text ct).2 := by
  simp only [classify, specClassify]
  rw [argmaxFold_eq_specWinner]
  dsimp only
  split_ifs <;> first | exact ⟨rfl, rfl⟩ | tauto

/-- C2 (counterexample): "hello" matches zero keywords in all five categories,
yet under the default configuration the classifier returns category
"Uncertain", not the tie-break category "Bug". -/
theorem C2_counterexample :
    (countPresent (pyLower "hello") bugKeywords = 0 ∧
      countPresent (pyLower "hello") featureKeywords = 0 ∧
      countPresent (pyLower "hello") praiseKeywords = 0 ∧
      countPresent (pyLower "hello") complaintKeywords = 0 ∧
      countPresent (pyLower "hello") spamKeywords = 0) ∧
    (classify "hello" defaultClassificationThresholds).category = "Uncertain" ∧
    ¬ (classify "hello" defaultClassificationThresholds).category = "Bug" := by
  have h := classify_all_zero "hello" defaultClassificationThresholds
    (by decide) (by decide) (by decide) (by decide) (by decide)
  have hcat : (classify "hello" defaultClassificationThresholds).category = "Uncertain" := by
    rw [h.2, if_pos]
    constructor <;> norm_num [defaultClassificationThresholds]
  exact ⟨⟨by decide, by decide, by decide, by decide, by decide⟩, hcat, by rw [hcat]; decide⟩

/-- C2 (amended): a text matching zero keywords across all categories gets
reported confidence 0 and pre-gate arg-max category "Bug", but the threshold
gate then returns "Uncertain" whenever the Bug threshold and the global
minimum_confidence are both positive (as in the default configuration), and
"Bug" only otherwise. -/
theorem C2_zero_scores_amended (text : String) (ct : ClassificationThresholds)
    (h1 : countPresent (pyLower text) bugKeywords = 0)
    (h2 : countPresent (pyLower text) featureKeywords = 0)
    (h3 : countPresent (pyLower text) praiseKeywords = 0)
    (h4 : countPresent (pyLower text) complaintKeywords = 0)
    (h5 : countPresent (pyLower text) spamKeywords = 0) :
    (classify text ct).confidence = 0 ∧
      (classify text ct).category =
        (if 0 < ct.bug_threshold ∧ 0 < ct.minimum_confidence then "Uncertain" else "Bug") :=
  classify_all_zero text ct h1 h2 h3 h4 h5

/-- C2 (witness): the amended statement evaluated at "hello" under the
default configuration. -/
theorem C2_zero_scores_amended_witness :
    (classify "hello" defaultClassificationThresholds).confidence = 0 ∧
      (classify "hello" defaultClassificationThresholds).category =
        (if 0 < defaultClassificationThresholds.bug_threshold ∧
            0 < defaultClassificationThresholds.minimum_confidence then
          "Uncertain" else "Bug") :=
  C2_zero_scores_amended "hello" defaultClassificationThresholds
    (by decide) (by decide) (by decide) (by decide) (by decide)

/-- C4: the priority cascade returns the first matching rule — Critical on
any critical keyword regardless of category, else High for Bug texts with a
high keyword, else Medium for Feature Request or Complaint, else Low — and
in particular any text containing "critical" is Critical for every
category. -/
theorem C4_priority_cascade :
    (∀ text category, priorityRun text category = specPriority text category) ∧
      ∀ text category, strContains (pyLower text) "critical" = true →
        priorityRun text category = "Critical" := by
  constructor
  · intro text category
    simp only [priorityRun, specPriority]
    split_ifs <;> first | rfl | tauto
  · intro text category h
    simp [priorityRun, anyKeyword, criticalKeywords, h]

/-- C4 (witness): the cascade evaluated at the text "critical" with
category "Praise". -/
theorem C4_priority_cascade_witness :
    priorityRun "critical" "Praise" = "Critical" :=
  C4_priority_cascade.2 "critical" "Praise" (by decide)

/-- C5: for a category other than "Bug" (case-insensitively) the bug
analyzer returns exactly the fixed skip dict; for "Bug" it reports
is_bug with the keyword-derived severity, the PriorityScorer's priority,
and the reproduction marker exactly when "steps" or "reproduce" occurs. -/
theorem C5_bug_analyzer :
    (∀ text category, pyLower category ≠ "bug" →
        bugAnalyzer text category =
          { is_bug := false, technical_details := "N/A - not a bug report",
            severity := "N/A", priority := "N/A", reproduction_steps := none }) ∧
      ∀ text category, pyLower category = "bug" →
        (bugAnalyzer text category).is_bug = true ∧
          (bugAnalyzer text category).severity =
            (if anyKeyword (pyLower text)
                ["crash", "data loss", "cannot", "critical", "urgent"] then "High"
             else if anyKeyword (pyLower text) ["error", "issue", "problem", "broken"] then
               "Medium"
             else "Low") ∧
          (bugAnalyzer text category).priority = priorityRun text category ∧
          ((bugAnalyzer text category).reproduction_steps =
              some "Contains reproduction steps" ↔
            (strContains (pyLower text) "steps" = true ∨
              strContains (pyLower text) "reproduce" = true)) := by
  constructor
  · intro text category h
    simp [bugAnalyzer, h]
  · intro text category h
    refine ⟨by simp [bugAnalyzer, h], by simp [bugAnalyzer, h], by simp [bugAnalyzer, h], ?_⟩
    simp only [bugAnalyzer, h]
    rcases h1 : strContains (pyLower text) "steps" <;>
      rcases h2 : strContains (pyLower text) "reproduce" <;>
      simp [h1, h2]

/-- C5 (witness): the skip branch at category "Praise" and the bug branch
at a crash report with reproduction steps. -/
theorem C5_bug_analyzer_witness :
    bugAnalyzer "it is fine" "Praise" =
        { is_bug := false, technical_details := "N/A - not a bug report",
          severity := "N/A", priority := "N/A", reproduction_steps := none } ∧
      (bugAnalyzer "app crash, steps below" "Bug").is_bug = true :=
  ⟨C5_bug_analyzer.1 "it is fine" "Praise" (by decide),
    (C5_bug_analyzer.2 "app crash, steps below" "Bug" (by decide)).1⟩

/-- C6 (counterexample): "version 5" — a `version` with a single numeric
component — yields no App Version entry at all: the extractor returns the
sentinel, contradicting the claim that a single-component version is
emitted. -/
theorem C6_counterexample :
    techDetails "version 5" = "No technical details found" ∧
      techSignals "version 5" = [] := by
  exact ⟨by decide, by decide⟩

/-- Every detail string built by the extractor starts with 'D', 'i', 'A'
or 'C'. -/
theorem techSignals_head (t : String) (d : List Char) (hd : d ∈ techSignals t) :
    ∃ c cs, d = c :: cs ∧ (c = 'D' ∨ c = 'i' ∨ c = 'A' ∨ c = 'C') := by
  simp only [techSignals, List.mem_append, List.mem_map, List.mem_filter,
    Option.mem_toList] at hd
  rcases hd with ((((⟨x, _, hx⟩ | ⟨v, _, hv⟩) | ⟨v, _, hv⟩) | ⟨v, _, hv⟩) | hrep)
  · exact ⟨'D', _, by rw [← hx]; rfl, Or.inl rfl⟩
  · exact ⟨'i', _, by rw [← hv]; rfl, Or.inr (Or.inl rfl)⟩
  · exact ⟨'A', _, by rw [← hv]; rfl, Or.inr (Or.inr (Or.inl rfl))⟩
  · exact ⟨'A', _, by rw [← hv]; rfl, Or.inr (Or.inr (Or.inl rfl))⟩
  · split at hrep
    · simp only [List.mem_singleton] at hrep
      exact ⟨'C', _, by rw [hrep], Or.inr (Or.inr (Or.inr rfl))⟩
    · exact absurd hrep (List.not_mem_nil d)

/-- Joining a nonempty detail list keeps the first detail's head char. -/
theorem joinSemi_cons_head (d : List Char) (ds : List (List Char)) (c : Char)
    (cs : List Char) (h : d = c :: cs) :
    ∃ tail, joinSemi (d :: ds) = c :: tail := by
  cases ds <;> subst h <;> exact ⟨_, rfl⟩

/-- If any signal was detected, the joined output is not the sentinel. -/
theorem techDetails_ne_sentinel (t : String) (h : techSignals t ≠ []) :
    techDetails t ≠ "No technical details found" := by
  obtain ⟨d, ds, hds⟩ : ∃ d ds, techSignals t = d :: ds := by
    cases h' : techSignals t with
    | nil => exact absurd h' h
    | cons a l => exact ⟨a, l, rfl⟩
  obtain ⟨c, cs, hd, hc⟩ := techSignals_head t d (hds ▸ List.mem_cons_self d ds)
  obtain ⟨tail, hj⟩ := joinSemi_cons_head d ds c cs hd
  simp only [techDetails, hds]
  intro he
  have hdata : c :: tail = "No technical details found".data := by
    have := congrArg String.data he
    rwa [hj] at this
  have hhead := congrArg List.head? hdata
  simp only [List.head?] at hhead
  have hcN : c = 'N' := by
    have : some c = some 'N' := hhead
    exact Option.some.inj this
  subst hcN
  rcases hc with h' | h' | h' | h' <;> exact absurd h' (by decide)

/-- C6 (amended): the extractor returns the sentinel exactly when no
device, OS, app-version or reproduction signal was detected; the
app-version signal requires a number with at least two dotted components —
"version 5.2.1" is emitted but "version 5" is not. -/
theorem C6_tech_details_amended :
    (∀ t, techDetails t = "No technical details found" ↔ techSignals t = []) ∧
      techDetails "version 5.2.1" = "App Version: 5.2.1" ∧
      techDetails "version 5" = "No technical details found" := by
  refine ⟨fun t => ⟨?_, ?_⟩, by decide, by decide⟩
  · intro h
    by_contra hne
    exact techDetails_ne_sentinel t hne h
  · intro h
    simp [techDetails, h]

/-- C7 (counterexample): a ticket record with every consulted field missing
scores 100 − 4·20 − 10 − 15 = −5, outside the claimed range [0, 100]. -/
theorem C7_counterexample :
    (qualityReview ⟨none, none, none, none, none⟩).quality_score = -5 ∧
      ¬ (0 ≤ (qualityReview ⟨none, none, none, none, none⟩).quality_score) := by
  exact ⟨by decide, by decide⟩

/-- C7 (amended): for every ticket record the quality score lies in
[−5, 100] (not [0, 100]: all deductions can stack to 105), and the status
is "approved" exactly when the score reaches the fixed cutoff 70,
"needs_review" otherwise. -/
theorem C7_quality_range_amended (t : TicketRecord) :
    -5 ≤ (qualityReview t).quality_score ∧ (qualityReview t).quality_score ≤ 100 ∧
      ((qualityReview t).status = "approved" ↔ 70 ≤ (qualityReview t).quality_score) ∧
      ((qualityReview t).status = "approved" ∨
        (qualityReview t).status = "needs_review") := by
  simp only [qualityReview]
  split_ifs <;> first | decide | omega

/-- C8: export → import → export reproduces every section and metadata
field of the configuration document except the `last_updated` timestamp,
which the import's save step restamps. -/
theorem C8_config_roundtrip (c : SystemConfiguration) (t1 t2 : String) :
    dropTimestamp (exportConfiguration (importConfiguration (exportConfiguration c) t1 t2)) =
        dropTimestamp (exportConfiguration c) ∧
      exportConfiguration (importConfiguration (exportConfiguration c) t1 t2) =
        exportConfiguration { c with last_updated := t2 } := by
  cases c with
  | mk ct pw qt ags pr v lu cb =>
    cases pw
    constructor <;>
      simp [dropTimestamp, exportConfiguration, importConfiguration, loadConfiguration]

/-- A conditional singleton list is empty exactly when the condition
fails. -/
theorem iteSingle_eq_nil (P : Prop) [Decidable P] (m : String) :
    ((if P then [m] else []) = []) ↔ ¬ P := by
  split_ifs with h <;> simp [h]

/-- The validator's `valid` flag is the emptiness of its issue list. -/
theorem validate_valid_eq_isEmpty (c : SystemConfiguration) :
    (validateConfiguration c).valid = (validateConfiguration c).issues.isEmpty := rfl

/-- The validator's hard-issue list is empty exactly under the spec's
validity condition. -/
theorem validate_issues_empty_iff (c : SystemConfiguration) :
    (validateConfiguration c).issues = [] ↔ specValid c := by
  simp only [validateConfiguration, List.append_eq_nil, iteSingle_eq_nil, not_not,
    not_le, specValid, ctInRange]
  tauto

/-- `|x − 1| > 1/10` says exactly that `x` lies outside [0.9, 1.1]. -/
theorem abs_sub_one_gt_tenth (x : ℚ) :
    |x - 1| > 1/10 ↔ (x < 9/10 ∨ 11/10 < x) := by
  rw [gt_iff_lt, lt_abs]
  constructor
  · rintro (h | h)
    · right; linarith
    · left; linarith
  · rintro (h | h)
    · right; linarith
    · left; linarith

/-- C9: the validator returns valid exactly when its hard-issue list is
empty, which happens exactly when every classification threshold is in
[0,1] and the quality thresholds ascend strictly; a priority-weights sum
outside [0.9,1.1] produces only a warning and never affects validity. In
particular reject=40, manual_review=60, auto_approve=90 with in-range
classification thresholds is valid, and manual_review=30 is invalid with
the ordering issue listed. -/
theorem C9_validate_spec :
    (∀ c, ((validateConfiguration c).valid = true ↔ (validateConfiguration c).issues = [])) ∧
      (∀ c, ((validateConfiguration c).valid = true ↔ specValid c)) ∧
      (∀ c, ((validateConfiguration c).warnings = [] ↔
        ¬ (weightsSum c.priority_weights < 9/10 ∨ 11/10 < weightsSum c.priority_weights))) ∧
      (∀ c : SystemConfiguration, ctInRange c.classification_thresholds →
        c.quality_thresholds.reject_threshold = 40 →
        c.quality_thresholds.manual_review_threshold = 60 →
        c.quality_thresholds.auto_approve_threshold = 90 →
        (validateConfiguration c).valid = true) ∧
      ∀ c : SystemConfiguration,
        c.quality_thresholds.reject_threshold = 40 →
        c.quality_thresholds.manual_review_threshold = 30 →
        (validateConfiguration c).valid = false ∧
          "Reject threshold must be lower than manual review threshold" ∈
            (validateConfiguration c).issues := by
  have hvalid : ∀ c, (validateConfiguration c).valid = true ↔
      (validateConfiguration c).issues = [] := by
    intro c
    rw [validate_valid_eq_isEmpty, List.isEmpty_iff]
  refine ⟨hvalid, ?_, ?_, ?_, ?_⟩
  · intro c
    rw [hvalid, validate_issues_empty_iff]
  · intro c
    simp only [validateConfiguration]
    rw [show (c.priority_weights.bug_severity_weight + c.priority_weights.user_impact_weight +
        c.priority_weights.technical_complexity_weight +
        c.priority_weights.business_priority_weight) = weightsSum c.priority_weights from rfl]
    split_ifs with h
    · rw [abs_sub_one_gt_tenth] at h
      simp [h]
    · rw [abs_sub_one_gt_tenth] at h
      simp [h]
  · intro c hct h40 h60 h90
    rw [hvalid, validate_issues_empty_iff]
    refine ⟨hct, ?_, ?_⟩
    · rw [h40, h60]; norm_num
    · rw [h60, h90]; norm_num
  · intro c h40 h30
    have hmem : "Reject threshold must be lower than manual review threshold" ∈
        (if c.quality_thresholds.reject_threshold ≥
            c.quality_thresholds.manual_review_threshold then
          ["Reject threshold must be lower than manual review threshold"] else []) := by
      rw [if_pos (by rw [h40, h30]; norm_num)]
      exact List.mem_singleton_self _
    have hmem' : "Reject threshold must be lower than manual review threshold" ∈
        (validateConfiguration c).issues := by
      simp only [validateConfiguration, List.mem_append]
      tauto
    refine ⟨?_, hmem'⟩
    have hne : (validateConfiguration c).issues ≠ [] := by
      intro he
      have hs := ((validate_issues_empty_iff c).mp he).2.1
      rw [h40, h30] at hs
      linarith
    rw [validate_valid_eq_isEmpty]
    simpa [List.isEmpty_iff] using hne

/-- C9 (witness): the default configuration (classification thresholds in
range, quality thresholds 40 < 60 < 90) is valid; lowering manual_review
to 30 flips validity and lists the ordering issue. -/
theorem C9_validate_spec_witness :
    (validateConfiguration (createDefaultConfiguration "t0")).valid = true ∧
      ((validateConfiguration
          { createDefaultConfiguration "t0" with
              quality_thresholds := ⟨70, 90, 30, 40⟩ }).valid = false ∧
        "Reject threshold must be lower than manual review threshold" ∈
          (validateConfiguration
            { createDefaultConfiguration "t0" with
                quality_thresholds := ⟨70, 90, 30, 40⟩ }).issues) := by
  constructor
  · exact C9_validate_spec.2.2.2.1 (createDefaultConfiguration "t0")
      (by norm_num [createDefaultConfiguration, defaultClassificationThresholds, ctInRange])
      (by norm_num [createDefaultConfiguration, defaultQualityThresholds])
      (by norm_num [createDefaultConfiguration, defaultQualityThresholds])
      (by norm_num [createDefaultConfiguration, defaultQualityThresholds])
  · exact C9_validate_spec.2.2.2.2
      { createDefaultConfiguration "t0" with quality_thresholds := ⟨70, 90, 30, 40⟩ }
      (by norm_num [createDefaultConfiguration]) (by norm_num [createDefaultConfiguration])

/-- C3 (counterexample): a batch whose middle item carries a null
`review_text` aborts the hybrid loop with the propagated exception — the
third item is never processed, so a per-item failure is not isolated. -/
theorem C3_counterexample :
    hybridLoop
        [FeedbackItem.email "Great app" "love it" "E1",
         FeedbackItem.review PyVal.nan "R1",
         FeedbackItem.email "Crash report" "it crashed" "E2"]
        defaultClassificationThresholds "2024-01-01T00:00:00"
      = Except.error "TypeError: 'NoneType' object is not subscriptable" := rfl

/-- C3 (amended): the hybrid loop has no per-item exception handling: a
batch whose items up to some failing item process cleanly aborts at that
item with its exception, whatever items follow. -/
theorem C3_batch_aborts_amended (pre post : List FeedbackItem)
    (ct : ClassificationThresholds) (now : String)
    (h : ∀ i ∈ pre, itemGood i = true) :
    ∃ e, hybridLoop (pre ++ FeedbackItem.review PyVal.nan "X" :: post) ct now =
      Except.error e := by
  induction pre with
  | nil => exact ⟨_, rfl⟩
  | cons a rest ih =>
    have ha : itemGood a = true := h a (List.mem_cons_self a rest)
    obtain ⟨e, he⟩ := ih (fun i hi => h i (List.mem_cons_of_mem a hi))
    cases a with
    | review t id =>
      cases t with
      | str s =>
        exact ⟨e, by
          simp only [List.cons_append, hybridLoop, itemSource, processSingleE,
            List.append_eq, he]⟩
      | nan => exact absurd ha (by simp [itemGood])
    | email s b id =>
      exact ⟨e, by
        simp only [List.cons_append, hybridLoop, itemSource, processSingleE,
          List.append_eq, he]⟩
    | other =>
      exact ⟨e, by
        simp only [List.cons_append, hybridLoop, itemSource, List.append_eq, he]⟩

/-- C3 (witness): the amended statement at a concrete batch — one clean
email before the failing review, one skippable row after. -/
theorem C3_batch_aborts_amended_witness :
    ∃ e, hybridLoop
        ([FeedbackItem.email "Great app" "love it" "E1"] ++
          FeedbackItem.review PyVal.nan "X" :: [FeedbackItem.other])
        defaultClassificationThresholds "2024-01-01T00:00:00"
      = Except.error e :=
  C3_batch_aborts_amended [FeedbackItem.email "Great app" "love it" "E1"]
    [FeedbackItem.other] defaultClassificationThresholds "2024-01-01T00:00:00"
    (by decide)

/-- The title generator returns a non-empty literal in every branch. -/
theorem generateTitle_ne_empty (category text : String) :
    generateTitle category text ≠ "" := by
  simp only [generateTitle]
  split_ifs <;> decide

/-- The spec-side arg-max only returns the five category names. -/
theorem specWinner_ne_empty (b f p c s : Nat) : specWinner b f p c s ≠ "" := by
  simp only [specWinner]
  split_ifs <;> decide

/-- The classifier never returns an empty category string. -/
theorem classify_category_ne_empty (text : String) (ct : ClassificationThresholds) :
    (classify text ct).category ≠ "" := by
  simp only [classify]
  rw [argmaxFold_eq_specWinner]
  dsimp only
  split_ifs <;> dsimp only <;> first | decide | exact specWinner_ne_empty _ _ _ _ _

/-- The priority scorer never returns an empty priority string. -/
theorem priorityRun_ne_empty (text category : String) :
    priorityRun text category ≠ "" := by
  simp only [priorityRun]
  split_ifs <;> decide

/-- The reviewer's status is one of its two literals. -/
theorem qualityReview_status_cases (t : TicketRecord) :
    (qualityReview t).status = "approved" ∨ (qualityReview t).status = "needs_review" := by
  simp only [qualityReview]
  split_ifs <;> simp

/-- A present, non-empty field is not falsy. -/
theorem pyFalsy_some_eq_false (s : String) (h : s ≠ "") : pyFalsy (some s) = false := by
  simp [pyFalsy, h]

/-- With title, category and priority all non-falsy, only the description
and confidence deductions (20 + 10 + 15) can fire. -/
theorem qualityReview_score_ge (t : TicketRecord)
    (ht : pyFalsy t.title = false) (hc : pyFalsy t.category = false)
    (hp : pyFalsy t.priority = false) :
    55 ≤ (qualityReview t).quality_score := by
  simp only [qualityReview, ht, hc, hp, Bool.false_eq_true, if_false]
  split_ifs <;> omega

/-- A ticket id always carries the "TICKET-" prefix. -/
theorem ticket_prefix_ne_empty (s : String) : ("TICKET-" ++ s) ≠ "" := by
  intro h
  have hdata := congrArg String.data h
  rw [show ("TICKET-" ++ s).data = 'T' :: ("ICKET-".data ++ s.data) from rfl] at hdata
  simp at hdata

/-- C10: every ticket assembled by the per-item pipeline has a non-empty
ticket id, title, category and priority and status "Open" — the title
generator is non-empty for every category, including Uncertain — so the
reviewer can deduct at most 20 + 10 + 15 and every in-pipeline quality
score is at least 55, with status "needs_review" at worst. -/
theorem C10_pipeline_ticket_invariants :
    (∀ category text, generateTitle category text ≠ "") ∧
      ∀ source_id source_type text : String, ∀ ct : ClassificationThresholds, ∀ now : String,
        (processSingleWithAgents source_id source_type text ct now).ticket_id ≠ "" ∧
        (processSingleWithAgents source_id source_type text ct now).title ≠ "" ∧
        (processSingleWithAgents source_id source_type text ct now).category ≠ "" ∧
        (processSingleWithAgents source_id source_type text ct now).priority ≠ "" ∧
        (processSingleWithAgents source_id source_type text ct now).status = "Open" ∧
        55 ≤ (processSingleWithAgents source_id source_type text ct now).quality_score ∧
        ((processSingleWithAgents source_id source_type text ct now).review_status =
            "approved" ∨
          (processSingleWithAgents source_id source_type text ct now).review_status =
            "needs_review") := by
  refine ⟨generateTitle_ne_empty, ?_⟩
  intro source_id source_type text ct now
  simp only [processSingleWithAgents]
  refine ⟨?_, ?_, ?_, ?_, ?_, ?_, ?_⟩
  · exact ticket_prefix_ne_empty source_id
  · exact generateTitle_ne_empty _ _
  · exact classify_category_ne_empty text ct
  · exact priorityRun_ne_empty _ _
  · trivial
  · exact qualityReview_score_ge _
      (pyFalsy_some_eq_false _ (generateTitle_ne_empty _ _))
      (pyFalsy_some_eq_false _ (classify_category_ne_empty text ct))
      (pyFalsy_some_eq_false _ (priorityRun_ne_empty _ _))
  · exact qualityReview_status_cases _

end FeedbackSystem
